import Mathlib

/-!
Verification of the `linguistic-style-transfer` driver code
(`linguistic_style_transfer_model/main.py` and
`linguistic_style_transfer_model/utils/tsne_interface.py`) against its
natural-language specification.

The Python functions are shallowly embedded as executable Lean
definitions: integers become `Nat`, float vectors become `List ℚ`
(element-wise arithmetic is exact there, which is what the grouping and
averaging claims are about), Python dicts with insertion order become
association lists, and the imperative control flow of `main` becomes a
pure function from parsed arguments to the list of effects it performs.
-/

namespace LST

/-- A style embedding vector.  `numpy` float vectors are modelled as
rational vectors so that element-wise means are exact. -/
abbrev Vec := List ℚ

/-- `main.py` line 179: `samples_size = data_size - (data_size % batch_size)`,
the number of examples kept for sampling / inference. -/
def samplesSize (data_size batch_size : Nat) : Nat :=
  data_size - (data_size % batch_size)

/-- The `(label, style_embedding)` pairs visited by the loop of
`get_average_label_embeddings` (`main.py` lines 42-46):
`for i in range(data_size - (data_size % batch_size)):
   label = label_sequences[i][0]; ... append(style_embeddings[i])`.
The loop bound is written out literally as in line 42. -/
def prefixPairs (data_size batch_size : Nat) (label_sequences : List (List Nat))
    (style_embeddings : List Vec) : List (Nat × Vec) :=
  (List.range (data_size - (data_size % batch_size))).map
    (fun i => ((label_sequences.getD i []).headD 0, style_embeddings.getD i []))

/-- The labels occurring among the truncated leading examples, in loop order. -/
def prefixLabels (data_size batch_size : Nat) (label_sequences : List (List Nat)) :
    List Nat :=
  (List.range (data_size - (data_size % batch_size))).map
    (fun i => (label_sequences.getD i []).headD 0)

/-- `tf.keras.preprocessing.sequence.pad_sequences` applied to one row with
`maxlen=L, padding='post', truncating='post', value=v`: keep the first `L`
tokens and pad at the end with `v` up to length `L`. -/
def padSequence (v L : Nat) (s : List Nat) : List Nat :=
  s.take L ++ List.replicate (L - s.length) v

/-- `main.py` line 86: each generated sequence is trimmed to its reported
effective length, `[x[:y] for (x, y) in zip(generated_sequences, final_sequence_lengths)]`. -/
def trimToFinalLengths (generated_sequences : List (List Nat))
    (final_sequence_lengths : List Nat) : List (List Nat) :=
  List.zipWith (fun x y => x.take y) generated_sequences final_sequence_lengths

/-- `main.py` lines 86-90 of `execute_post_inference_operations`: trim each
generated sequence to its effective length, then pad/truncate every row to
exactly `max_sequence_length` positions with the end-of-sequence id. -/
def postInferenceSequences (eos max_sequence_length : Nat)
    (generated_sequences : List (List Nat)) (final_sequence_lengths : List Nat) :
    List (List Nat) :=
  (trimToFinalLengths generated_sequences final_sequence_lengths).map
    (padSequence eos max_sequence_length)

/-! ### Python dicts as insertion-ordered association lists -/

/-- Python dict lookup `d[k]` on an insertion-ordered association list;
`none` models a `KeyError`. -/
def lookupA {α : Type} : List (Nat × α) → Nat → Option α
  | [], _ => none
  | (k, v) :: rest, l => if k = l then some v else lookupA rest l

/-- One iteration of the grouping loop in `get_average_label_embeddings`
(`main.py` lines 43-46): `if label not in map: map[label] = list();
map[label].append(emb)`.  An existing entry keeps its position; a new key
is appended at the end, as in a Python dict. -/
def addToMap (m : List (Nat × List Vec)) (label : Nat) (emb : Vec) :
    List (Nat × List Vec) :=
  match m with
  | [] => [(label, [emb])]
  | (k, g) :: rest =>
      if k = label then (k, g ++ [emb]) :: rest
      else (k, g) :: addToMap rest label emb

/-- The `label_embedding_map` built by `get_average_label_embeddings`
(`main.py` lines 41-46), with the loop bound written literally as in
line 42. -/
def buildLabelEmbeddingMap (data_size batch_size : Nat)
    (label_sequences : List (List Nat)) (style_embeddings : List Vec) :
    List (Nat × List Vec) :=
  (List.range (data_size - (data_size % batch_size))).foldl
    (fun m i =>
      addToMap m ((label_sequences.getD i []).headD 0) (style_embeddings.getD i []))
    []

/-- Element-wise vector addition. -/
def vecAdd (u v : Vec) : Vec := List.zipWith (fun a b => a + b) u v

/-- `np.mean(vs, axis=0)` on a non-empty list of equal-length vectors:
element-wise sum divided by the number of vectors. -/
def vecMean : List Vec → Vec
  | [] => []
  | v :: rest =>
      (rest.foldl vecAdd v).map (fun x => x / ((rest.length + 1 : Nat) : ℚ))

/-- The map returned by `get_average_label_embeddings` (`main.py` lines
52-56): each label's embedding list replaced by its element-wise mean,
in the dict's insertion order. -/
def get_average_label_embeddings (data_size batch_size : Nat)
    (label_sequences : List (List Nat)) (style_embeddings : List Vec) :
    List (Nat × Vec) :=
  (buildLabelEmbeddingMap data_size batch_size label_sequences style_embeddings).map
    (fun p => (p.1, vecMean p.2))

/-- The style embeddings of exactly the truncated leading examples carrying
label `l`, in loop order. -/
def labelGroup (data_size batch_size : Nat) (label_sequences : List (List Nat))
    (style_embeddings : List Vec) (l : Nat) : List Vec :=
  ((prefixPairs data_size batch_size label_sequences style_embeddings).filter
    (fun p => decide (p.1 = l))).map Prod.snd

/-! ### Control flow of `main` (`main.py` lines 126-231)

`main` is embedded as a pure function from its parsed command-line
arguments to the list of externally visible effects it performs, in
program order.  `sys.exit(0)` on the no-op path and normal return both
give exit code 0; an `argparse` failure (missing required argument)
aborts with exit code 2 before the logger is even set up. -/

/-- The externally visible effects of one run of `main`. -/
inductive Event where
  | setupLogger
  | logNoOp
  | readData
  | loadPretrainedEmbeddings
  | buildModel
  | sessionOpen
  | trainModel
  | sessionClose
  | flushGroundTruth
  | inferSequences
  | bleuScore
  | writeGenerated
  | computeAverageEmbeddings
  | generateNovel
  deriving DecidableEq

/-- Successfully parsed command-line arguments (`main.py` lines 127-140). -/
structure Args where
  dev_mode : Bool
  train_model : Bool
  infer_sequences : Bool
  generate_novel_text : Bool
  use_pretrained_embeddings : Bool
  training_epochs : Nat
  vocab_size : Nat
  text_file_path : String
  label_file_path : String
  logging_level : String

/-- Raw command line before parsing: the two `required=True` string
arguments may be missing. -/
structure RawArgs where
  dev_mode : Bool
  train_model : Bool
  infer_sequences : Bool
  generate_novel_text : Bool
  use_pretrained_embeddings : Bool
  training_epochs : Nat
  vocab_size : Nat
  text_file_path : Option String
  label_file_path : Option String
  logging_level : String

/-- `argparse` with `--text-file-path` and `--label-file-path` declared
`required=True` (`main.py` lines 135-136): parsing succeeds exactly when
both are present. -/
def parseArgs (raw : RawArgs) : Option Args :=
  match raw.text_file_path, raw.label_file_path with
  | some t, some l =>
      some ⟨raw.dev_mode, raw.train_model, raw.infer_sequences,
        raw.generate_novel_text, raw.use_pretrained_embeddings,
        raw.training_epochs, raw.vocab_size, t, l, raw.logging_level⟩
  | _, _ => none

/-- Effects of `execute_post_inference_operations` (`main.py` lines 81-105):
BLEU scoring, then writing the generated sentences file. -/
def postInferenceEvents : List Event :=
  [Event.bleuScore, Event.writeGenerated]

/-- Effect trace of `main` after successful argument parsing
(`main.py` lines 142-218), in program order.  Note that on the
generate-novel-text path (lines 204-218) a session is opened at line 211
but never closed. -/
def mainTrace (args : Args) : List Event :=
  [Event.setupLogger] ++
  if !(args.train_model || args.infer_sequences || args.generate_novel_text) then
    [Event.logNoOp]
  else
    [Event.readData] ++
    (if args.train_model && args.use_pretrained_embeddings then
      [Event.loadPretrainedEmbeddings] else []) ++
    [Event.buildModel] ++
    (if args.train_model then
      [Event.sessionOpen, Event.trainModel, Event.sessionClose] else []) ++
    (if args.infer_sequences || args.generate_novel_text then
      [Event.flushGroundTruth] ++
      (if args.infer_sequences then
        [Event.sessionOpen, Event.inferSequences, Event.sessionClose] ++
          postInferenceEvents
       else []) ++
      (if args.generate_novel_text then
        [Event.computeAverageEmbeddings, Event.sessionOpen, Event.generateNovel] ++
          postInferenceEvents
       else [])
     else [])

/-- A whole run: argument parsing, then the body of `main`; the result is
the effect trace paired with the process exit code (2 on an `argparse`
failure, 0 otherwise). -/
def mainRun (raw : RawArgs) : List Event × Nat :=
  match parseArgs raw with
  | none => ([], 2)
  | some args => (mainTrace args, 0)

/-- Arguments selecting only `--generate-novel-text`. -/
def genOnlyArgs : Args :=
  ⟨false, false, false, true, false, 10, 1000, "text", "labels", "INFO"⟩

/-- `get_word_embeddings` (`main.py` lines 108-123): the freshly sampled
random encoder/decoder embedding matrices are replaced by the pretrained
loader's result only when both `train_model` and `use_pretrained_embeddings`
hold.  The two random matrices and the loader are passed in explicitly. -/
def get_word_embeddings (encoder_embedding_matrix decoder_embedding_matrix : List Vec)
    (load : List Vec → List Vec → List Vec × List Vec)
    (use_pretrained_embeddings train_model : Bool) : List Vec × List Vec :=
  if train_model && use_pretrained_embeddings then
    load encoder_embedding_matrix decoder_embedding_matrix
  else
    (encoder_embedding_matrix, decoder_embedding_matrix)

/-! ### `generate_plot_coordinates` (`tsne_interface.py` lines 12-19) -/

/-- The `(embeddings, markers)` pair built by the loops of
`generate_plot_coordinates`: for each label, first record the current
embedding count as a marker, then append that label's embeddings; after
the loop append the final count. -/
def generate_plot_coordinates {α : Type} (label_mapped_embeddings : List (Nat × List α)) :
    List α × List Nat :=
  let r := label_mapped_embeddings.foldl
    (fun (acc : List α × List Nat) p => (acc.1 ++ p.2, acc.2 ++ [acc.1.length]))
    ([], [])
  (r.1, r.2 ++ [r.1.length])

/-- Total number of embeddings in the first `i` groups of the map. -/
def groupSums {α : Type} (m : List (Nat × List α)) (i : Nat) : Nat :=
  ((m.take i).map (fun p => p.2.length)).sum

/-! ## Theorems -/

lemma length_padSequence (v L : Nat) (s : List Nat) :
    (padSequence v L s).length = L := by
  simp [padSequence]
  omega

/-- C1: the number of examples used for sampling/inference (`samples_size`,
`main.py` line 179) and by the average-embedding loop (`main.py` line 42) is
in both places `data_size - data_size % batch_size`; it counts a whole number
of full batches, never exceeds the dataset size (trailing examples are
dropped, not an error), the number dropped is `data_size % batch_size`, and
for `batch_size = 4`, `data_size = 10` exactly 8 examples are used and 2 are
dropped. -/
theorem c1_uniform_truncation (data_size batch_size : Nat)
    (label_sequences : List (List Nat)) (style_embeddings : List Vec) :
    (prefixPairs data_size batch_size label_sequences style_embeddings).length
        = samplesSize data_size batch_size
    ∧ samplesSize data_size batch_size
        = batch_size * (data_size / batch_size)
    ∧ samplesSize data_size batch_size ≤ data_size
    ∧ data_size - samplesSize data_size batch_size = data_size % batch_size
    ∧ samplesSize 10 4 = 8 ∧ 10 - samplesSize 10 4 = 2 := by
  refine ⟨?_, ?_, ?_, ?_, ?_, ?_⟩
  · simp [prefixPairs, samplesSize]
  · have h := Nat.div_add_mod data_size batch_size
    simp only [samplesSize]
    omega
  · simp only [samplesSize]
    omega
  · have h := Nat.mod_le data_size batch_size
    simp only [samplesSize]
    omega
  · rfl
  · rfl

/-- C5: every output row produced by `execute_post_inference_operations`
(trim to the effective length, then pad/truncate) has length exactly
`max_sequence_length` — in particular never more — so every written sentence
is generated from exactly `max_sequence_length` token positions. -/
theorem c5_output_length (eos max_sequence_length : Nat)
    (generated_sequences : List (List Nat)) (final_sequence_lengths : List Nat)
    (s : List Nat)
    (hs : s ∈ postInferenceSequences eos max_sequence_length
        generated_sequences final_sequence_lengths) :
    s.length = max_sequence_length ∧ s.length ≤ max_sequence_length := by
  rcases List.mem_map.mp hs with ⟨t, _, rfl⟩
  constructor
  · exact length_padSequence _ _ _
  · exact Nat.le_of_eq (length_padSequence _ _ _)

/-- Witness for C5 at a concrete batch: two sequences of lengths 3 and 1
after trimming, padded to `max_sequence_length = 4`. -/
theorem c5_output_length_witness :
    ([2, 3, 4, 1] : List Nat) ∈ postInferenceSequences 1 4 [[2, 3, 4, 5, 6], [7, 8]] [3, 1]
    ∧ ([2, 3, 4, 1] : List Nat).length = 4 ∧ ([2, 3, 4, 1] : List Nat).length ≤ 4 :=
  ⟨by decide, c5_output_length 1 4 [[2, 3, 4, 5, 6], [7, 8]] [3, 1] [2, 3, 4, 1] (by decide)⟩

/-- C3 fails on the code: on the generate-novel-text path the session
opened at `main.py` line 211 is never closed — the run opens exactly one
session and closes none. -/
theorem c3_generate_session_never_closed :
    (mainTrace genOnlyArgs).count Event.sessionOpen = 1
    ∧ (mainTrace genOnlyArgs).count Event.sessionClose = 0 := by
  decide

/-- C4: when none of the train/infer/generate flags is set (and parsing
succeeded), `main` logs the no-op message and exits with code 0 having done
nothing else: no data is read and no model is built. -/
theorem c4_noop_exit (raw : RawArgs)
    (h1 : raw.train_model = false) (h2 : raw.infer_sequences = false)
    (h3 : raw.generate_novel_text = false)
    (ht : raw.text_file_path.isSome) (hl : raw.label_file_path.isSome) :
    (mainRun raw).2 = 0
    ∧ (mainRun raw).1 = [Event.setupLogger, Event.logNoOp]
    ∧ Event.readData ∉ (mainRun raw).1
    ∧ Event.buildModel ∉ (mainRun raw).1 := by
  rcases raw with ⟨dm, tm, is, gn, up, te, vs, tf, lf, ll⟩
  dsimp at h1 h2 h3 ht hl
  subst h1 h2 h3
  rcases tf with _ | t
  · simp at ht
  rcases lf with _ | l
  · simp at hl
  simp [mainRun, parseArgs, mainTrace]

/-- Witness for C4 at a concrete command line. -/
theorem c4_noop_exit_witness :
    (let raw : RawArgs :=
      ⟨false, false, false, false, false, 10, 1000, some "t.txt", some "l.txt", "INFO"⟩
     (mainRun raw).2 = 0
     ∧ (mainRun raw).1 = [Event.setupLogger, Event.logNoOp]
     ∧ Event.readData ∉ (mainRun raw).1
     ∧ Event.buildModel ∉ (mainRun raw).1) :=
  c4_noop_exit
    ⟨false, false, false, false, false, 10, 1000, some "t.txt", some "l.txt", "INFO"⟩
    rfl rfl rfl (by decide) (by decide)

/-- C6: if the text-file-path or the label-file-path argument is missing,
argument parsing fails (exit code 2) and the run performs no effect at all:
in particular no data is read and no model is built. -/
theorem c6_missing_path_fails_fast (raw : RawArgs)
    (h : raw.text_file_path = none ∨ raw.label_file_path = none) :
    parseArgs raw = none ∧ mainRun raw = ([], 2) := by
  rcases raw with ⟨dm, tm, is, gn, up, te, vs, tf, lf, ll⟩
  have hp : parseArgs ⟨dm, tm, is, gn, up, te, vs, tf, lf, ll⟩ = none := by
    dsimp at h
    rcases tf with _ | t <;> rcases lf with _ | l <;>
      first
        | rfl
        | (rcases h with h | h <;> simp at h)
  exact ⟨hp, by simp [mainRun, hp]⟩

/-- Witness for C6: a command line missing `--text-file-path`. -/
theorem c6_missing_path_fails_fast_witness :
    (let raw : RawArgs :=
      ⟨false, true, false, false, false, 10, 1000, none, some "l.txt", "INFO"⟩
     parseArgs raw = none ∧ mainRun raw = ([], 2)) :=
  c6_missing_path_fails_fast
    ⟨false, true, false, false, false, 10, 1000, none, some "l.txt", "INFO"⟩
    (Or.inl rfl)

/-- C7: BLEU scoring happens in a run of `main` exactly when the
infer-sequences or generate-novel-text path runs; in particular a run with
only the train-model flag set performs no BLEU scoring. -/
theorem c7_bleu_only_post_inference (args : Args) :
    Event.bleuScore ∈ mainTrace args
    ↔ (args.infer_sequences = true ∨ args.generate_novel_text = true) := by
  rcases args with ⟨dm, tm, is, gn, up, te, vs, tf, lf, ll⟩
  cases tm <;> cases is <;> cases gn <;> cases up <;>
    simp [mainTrace, postInferenceEvents]

/-- C8: with the train-model flag unset, `use_pretrained_embeddings` has no
effect: `get_word_embeddings` returns the fresh random matrices unchanged,
and no run of `main` without `train_model` ever loads pretrained vectors. -/
theorem c8_pretrained_needs_training
    (enc dec : List Vec) (load : List Vec → List Vec → List Vec × List Vec)
    (up : Bool) (args : Args) (h : args.train_model = false) :
    get_word_embeddings enc dec load up args.train_model = (enc, dec)
    ∧ Event.loadPretrainedEmbeddings ∉ mainTrace args := by
  rcases args with ⟨dm, tm, is, gn, upa, te, vs, tf, lf, ll⟩
  dsimp at h
  subst h
  refine ⟨by simp [get_word_embeddings], ?_⟩
  cases is <;> cases gn <;> simp [mainTrace, postInferenceEvents]

/-- Witness for C8: infer-only run with use-pretrained-embeddings set. -/
theorem c8_pretrained_needs_training_witness :
    (let args : Args := ⟨false, false, true, false, true, 10, 1000, "t", "l", "INFO"⟩
     get_word_embeddings [[1]] [[2]] (fun _ _ => ([], [])) true args.train_model
        = ([[1]], [[2]])
     ∧ Event.loadPretrainedEmbeddings ∉ mainTrace args) :=
  c8_pretrained_needs_training [[1]] [[2]] (fun _ _ => ([], [])) true
    ⟨false, false, true, false, true, 10, 1000, "t", "l", "INFO"⟩ rfl

/-! ### Lemmas about the grouping dict of `get_average_label_embeddings` -/

lemma lookupA_addToMap (m : List (Nat × List Vec)) (label k : Nat) (e : Vec) :
    lookupA (addToMap m label e) k
      = if label = k then some ((lookupA m k).getD [] ++ [e]) else lookupA m k := by
  induction m with
  | nil =>
      by_cases h : label = k <;> simp [addToMap, lookupA, h]
  | cons p rest ih =>
      rcases p with ⟨k1, g⟩
      by_cases h1 : k1 = label
      · subst h1
        by_cases h2 : k1 = k
        · subst h2
          simp [addToMap, lookupA]
        · simp [addToMap, lookupA, h2]
      · by_cases h2 : k1 = k
        · subst h2
          have h3 : ¬ label = k1 := fun hh => h1 hh.symm
          simp [addToMap, lookupA, h1, h3]
        · simp [addToMap, lookupA, h1, h2, ih]

lemma lookupA_fold (ps : List (Nat × Vec)) (m : List (Nat × List Vec)) (k : Nat) :
    lookupA (ps.foldl (fun acc p => addToMap acc p.1 p.2) m) k
      = if (lookupA m k).isSome ∨ k ∈ ps.map Prod.fst
        then some ((lookupA m k).getD []
          ++ (ps.filter (fun p => decide (p.1 = k))).map Prod.snd)
        else none := by
  induction ps generalizing m with
  | nil =>
      cases h : lookupA m k <;> simp [h]
  | cons p ps ih =>
      rcases p with ⟨l, e⟩
      have step : (((l, e) :: ps).foldl (fun acc p => addToMap acc p.1 p.2) m)
          = ps.foldl (fun acc p => addToMap acc p.1 p.2) (addToMap m l e) := rfl
      rw [step, ih, lookupA_addToMap]
      by_cases hl : l = k
      · subst hl
        simp [List.filter_cons]
      · have hk : ¬ k = l := fun hh => hl hh.symm
        rw [if_neg hl]
        refine if_congr ?_ ?_ rfl
        · simp [hk]
        · have hf : List.filter (fun p => decide (p.1 = k)) ((l, e) :: ps)
              = List.filter (fun p => decide (p.1 = k)) ps := by
            simp [List.filter_cons, hl]
          rw [hf]

lemma build_eq_fold (data_size batch_size : Nat) (label_sequences : List (List Nat))
    (style_embeddings : List Vec) :
    buildLabelEmbeddingMap data_size batch_size label_sequences style_embeddings
      = (prefixPairs data_size batch_size label_sequences style_embeddings).foldl
          (fun acc p => addToMap acc p.1 p.2) [] := by
  simp [buildLabelEmbeddingMap, prefixPairs, List.foldl_map]

lemma keys_prefixPairs (data_size batch_size : Nat) (label_sequences : List (List Nat))
    (style_embeddings : List Vec) :
    (prefixPairs data_size batch_size label_sequences style_embeddings).map Prod.fst
      = prefixLabels data_size batch_size label_sequences := by
  simp [prefixPairs, prefixLabels, List.map_map]

lemma lookupA_build (data_size batch_size : Nat) (label_sequences : List (List Nat))
    (style_embeddings : List Vec) (k : Nat) :
    lookupA (buildLabelEmbeddingMap data_size batch_size label_sequences style_embeddings) k
      = if k ∈ prefixLabels data_size batch_size label_sequences
        then some (labelGroup data_size batch_size label_sequences style_embeddings k)
        else none := by
  rw [build_eq_fold, lookupA_fold, keys_prefixPairs]
  simp [lookupA, labelGroup]

lemma lookupA_map {α β : Type} (f : α → β) (m : List (Nat × α)) (k : Nat) :
    lookupA (m.map (fun p => (p.1, f p.2))) k = (lookupA m k).map f := by
  induction m with
  | nil => rfl
  | cons p rest ih =>
      rcases p with ⟨k1, v⟩
      by_cases h : k1 = k <;> simp [lookupA, h, ih]

lemma keys_addToMap (m : List (Nat × List Vec)) (label : Nat) (e : Vec) :
    (addToMap m label e).map Prod.fst
      = if label ∈ m.map Prod.fst then m.map Prod.fst
        else m.map Prod.fst ++ [label] := by
  induction m with
  | nil => simp [addToMap]
  | cons p rest ih =>
      rcases p with ⟨k1, g⟩
      by_cases h : k1 = label
      · subst h
        simp [addToMap]
      · have h2 : ¬ label = k1 := fun hh => h hh.symm
        by_cases h3 : label ∈ rest.map Prod.fst <;>
          simp [addToMap, h, h2, h3, ih]

lemma nodup_keys_addToMap (m : List (Nat × List Vec)) (label : Nat) (e : Vec)
    (h : (m.map Prod.fst).Nodup) :
    ((addToMap m label e).map Prod.fst).Nodup := by
  rw [keys_addToMap]
  by_cases h2 : label ∈ m.map Prod.fst
  · simpa [h2]
  · simp [h2, List.nodup_append, h]

lemma nodup_keys_fold (ps : List (Nat × Vec)) (m : List (Nat × List Vec))
    (h : (m.map Prod.fst).Nodup) :
    ((ps.foldl (fun acc p => addToMap acc p.1 p.2) m).map Prod.fst).Nodup := by
  induction ps generalizing m with
  | nil => exact h
  | cons p ps ih => exact ih _ (nodup_keys_addToMap _ _ _ h)

lemma keys_average_eq_keys_build (data_size batch_size : Nat)
    (label_sequences : List (List Nat)) (style_embeddings : List Vec) :
    (get_average_label_embeddings data_size batch_size label_sequences
        style_embeddings).map Prod.fst
      = (buildLabelEmbeddingMap data_size batch_size label_sequences
          style_embeddings).map Prod.fst := by
  simp [get_average_label_embeddings, List.map_map]

lemma lookupA_average (data_size batch_size : Nat) (label_sequences : List (List Nat))
    (style_embeddings : List Vec) (l : Nat) :
    lookupA (get_average_label_embeddings data_size batch_size label_sequences
        style_embeddings) l
      = if l ∈ prefixLabels data_size batch_size label_sequences
        then some (vecMean (labelGroup data_size batch_size label_sequences
            style_embeddings l))
        else none := by
  rw [get_average_label_embeddings, lookupA_map, lookupA_build]
  by_cases h : l ∈ prefixLabels data_size batch_size label_sequences <;> simp [h]

/-- C2: the map returned by `get_average_label_embeddings` has exactly one
entry per distinct label occurring among the first
`data_size - data_size % batch_size` examples and no entry for any other
label, and the entry of such a label is the element-wise mean of the style
embeddings of exactly the truncated leading examples carrying that label. -/
theorem c2_average_label_embeddings (data_size batch_size : Nat)
    (label_sequences : List (List Nat)) (style_embeddings : List Vec) :
    ((get_average_label_embeddings data_size batch_size label_sequences
        style_embeddings).map Prod.fst).Nodup
    ∧ ∀ l : Nat,
        lookupA (get_average_label_embeddings data_size batch_size label_sequences
            style_embeddings) l
          = if l ∈ prefixLabels data_size batch_size label_sequences
            then some (vecMean (labelGroup data_size batch_size label_sequences
                style_embeddings l))
            else none := by
  refine ⟨?_, fun l => lookupA_average _ _ _ _ l⟩
  rw [keys_average_eq_keys_build, build_eq_fold]
  exact nodup_keys_fold _ _ (by simp)

/-- C9: the generate-novel-text path looks up a uniformly chosen label from
the closed interval `[1, num_labels]` in the average-embedding map
(`main.py` lines 206-210); the lookup succeeds for every possible choice
exactly when every integer label in `[1, num_labels]` occurs among the first
`data_size - data_size % batch_size` examples, and for a concrete dataset
whose labels are not numbered from 1 (four examples all labelled 2, so
`num_labels = 1` and the random choice is 1) the lookup fails — a
`KeyError` in Python. -/
theorem c9_novel_text_lookup (data_size batch_size num_labels : Nat)
    (label_sequences : List (List Nat)) (style_embeddings : List Vec) :
    ((∀ c : Nat, 1 ≤ c → c ≤ num_labels →
        (lookupA (get_average_label_embeddings data_size batch_size label_sequences
            style_embeddings) c).isSome = true)
      ↔ (∀ l : Nat, 1 ≤ l → l ≤ num_labels →
          l ∈ prefixLabels data_size batch_size label_sequences))
    ∧ lookupA (get_average_label_embeddings 4 4 [[2], [2], [2], [2]]
        [[1], [1], [1], [1]]) 1 = none := by
  constructor
  · constructor
    · intro h l h1 h2
      have hs := h l h1 h2
      rw [lookupA_average] at hs
      by_cases hm : l ∈ prefixLabels data_size batch_size label_sequences
      · exact hm
      · simp [hm] at hs
    · intro h c h1 h2
      rw [lookupA_average]
      simp [h c h1 h2]
  · decide

/-! ### Lemmas about `generate_plot_coordinates` -/

lemma groupSums_zero {α : Type} (m : List (Nat × List α)) : groupSums m 0 = 0 := by
  simp [groupSums]

lemma groupSums_succ {α : Type} (p : Nat × List α) (rest : List (Nat × List α)) (i : Nat) :
    groupSums (p :: rest) (i + 1) = p.2.length + groupSums rest i := by
  simp [groupSums]

lemma take_len_append {α : Type} (l1 l2 : List α) : (l1 ++ l2).take l1.length = l1 := by
  induction l1 with
  | nil => simp
  | cons a l1 ih => simp [ih]

lemma drop_len_add_append {α : Type} (l1 l2 : List α) (n : Nat) :
    (l1 ++ l2).drop (l1.length + n) = l2.drop n := by
  induction l1 with
  | nil => simp
  | cons a l1 ih =>
      show List.drop ((l1.length + 1) + n) (a :: (l1 ++ l2)) = l2.drop n
      rw [Nat.add_right_comm]
      simp [ih]

lemma foldl_plot {α : Type} (m : List (Nat × List α)) (e : List α) (mk : List Nat) :
    m.foldl (fun (acc : List α × List Nat) p => (acc.1 ++ p.2, acc.2 ++ [acc.1.length]))
        (e, mk)
      = (e ++ (m.map (fun p => p.2)).flatten,
         mk ++ (List.range m.length).map (fun i => e.length + groupSums m i)) := by
  induction m generalizing e mk with
  | nil => simp
  | cons p rest ih =>
      have step :
          ((p :: rest).foldl
            (fun (acc : List α × List Nat) q => (acc.1 ++ q.2, acc.2 ++ [acc.1.length]))
            (e, mk))
          = rest.foldl
              (fun (acc : List α × List Nat) q => (acc.1 ++ q.2, acc.2 ++ [acc.1.length]))
              (e ++ p.2, mk ++ [e.length]) := rfl
      rw [step, ih]
      simp only [Prod.mk.injEq]
      constructor
      · simp
      · simp [List.range_succ_eq_map, List.map_map, Function.comp, groupSums_zero,
          groupSums_succ, Nat.add_assoc]

lemma plot_embeddings {α : Type} (m : List (Nat × List α)) :
    (generate_plot_coordinates m).1 = (m.map (fun p => p.2)).flatten := by
  simp [generate_plot_coordinates, foldl_plot]

lemma length_join_eq_groupSums {α : Type} (m : List (Nat × List α)) :
    ((m.map (fun p => p.2)).flatten).length = groupSums m m.length := by
  simp only [List.length_flatten, groupSums, List.take_length, List.map_map]
  rfl

lemma plot_markers {α : Type} (m : List (Nat × List α)) :
    (generate_plot_coordinates m).2
      = (List.range (m.length + 1)).map (fun i => groupSums m i) := by
  simp only [generate_plot_coordinates, foldl_plot, List.nil_append]
  rw [length_join_eq_groupSums, List.range_succ]
  simp

lemma markers_getD {α : Type} (m : List (Nat × List α)) (i : Nat)
    (h : i < m.length + 1) :
    (generate_plot_coordinates m).2.getD i 0 = groupSums m i := by
  rw [plot_markers]
  simp [List.getD_eq_getElem?_getD, List.getElem?_map, List.getElem?_range h]

lemma groupSums_le_succ {α : Type} (m : List (Nat × List α)) (i : Nat) :
    groupSums m i ≤ groupSums m (i + 1) := by
  induction m generalizing i with
  | nil => simp [groupSums]
  | cons p rest ih =>
      cases i with
      | zero => simp [groupSums_zero, groupSums_succ]
      | succ i =>
          rw [groupSums_succ, groupSums_succ]
          exact Nat.add_le_add_left (ih i) _

lemma groupSums_succ_eq {α : Type} (m : List (Nat × List α)) (i : Nat) (h : i < m.length) :
    groupSums m (i + 1) = groupSums m i + (m.get ⟨i, h⟩).2.length := by
  induction m generalizing i with
  | nil => simp at h
  | cons p rest ih =>
      cases i with
      | zero => simp [groupSums_zero, groupSums_succ, Nat.add_comm]
      | succ i =>
          have h2 : i < rest.length := by simpa using h
          rw [groupSums_succ, groupSums_succ, ih i h2, Nat.add_assoc]
          rfl

lemma join_block {α : Type} (m : List (Nat × List α)) (i : Nat) (h : i < m.length) :
    (((m.map (fun p => p.2)).flatten.drop (groupSums m i)).take ((m.get ⟨i, h⟩).2.length))
      = (m.get ⟨i, h⟩).2 := by
  induction m generalizing i with
  | nil => simp at h
  | cons p rest ih =>
      cases i with
      | zero =>
          simp only [groupSums_zero, List.drop_zero, List.map_cons, List.flatten_cons,
            List.get]
          exact take_len_append _ _
      | succ i =>
          have h2 : i < rest.length := by simpa using h
          simp only [groupSums_succ, List.map_cons, List.flatten_cons, List.get]
          rw [drop_len_add_append]
          exact ih i h2

/-- C10: for a non-empty label-to-embeddings map, the markers list built by
`generate_plot_coordinates` has exactly one more element than the number of
labels, starts at 0, ends at the total number of embeddings, is monotonically
non-decreasing, and each consecutive pair of markers delimits exactly the
contiguous block of embeddings of the corresponding label in iteration
order. -/
theorem c10_plot_markers {α : Type} (m : List (Nat × List α)) (hm : m ≠ []) :
    (generate_plot_coordinates m).2.length = m.length + 1
    ∧ (generate_plot_coordinates m).2.head? = some 0
    ∧ (generate_plot_coordinates m).2.getLast? = some (generate_plot_coordinates m).1.length
    ∧ (∀ i, i + 1 < (generate_plot_coordinates m).2.length →
        (generate_plot_coordinates m).2.getD i 0
          ≤ (generate_plot_coordinates m).2.getD (i + 1) 0)
    ∧ ∀ i, ∀ h : i < m.length,
        (((generate_plot_coordinates m).1.drop ((generate_plot_coordinates m).2.getD i 0)).take
            ((generate_plot_coordinates m).2.getD (i + 1) 0
              - (generate_plot_coordinates m).2.getD i 0))
          = (m.get ⟨i, h⟩).2 := by
  refine ⟨?_, ?_, ?_, ?_, ?_⟩
  · rw [plot_markers]
    simp
  · rw [plot_markers, List.range_succ_eq_map]
    simp [groupSums_zero]
  · rw [plot_markers, plot_embeddings, length_join_eq_groupSums, List.range_succ]
    simp
  · intro i hi
    rw [plot_markers] at hi
    simp only [List.length_map, List.length_range] at hi
    rw [markers_getD m i (by omega), markers_getD m (i + 1) (by omega)]
    exact groupSums_le_succ m i
  · intro i h
    rw [plot_embeddings, markers_getD m i (by omega), markers_getD m (i + 1) (by omega),
      groupSums_succ_eq m i h]
    have hsub : groupSums m i + (m.get ⟨i, h⟩).2.length - groupSums m i
        = (m.get ⟨i, h⟩).2.length := by omega
    rw [hsub]
    exact join_block m i h

/-- Witness for C10 at the concrete map `[(1, [10, 20]), (2, [30])]`. -/
theorem c10_plot_markers_witness :
    (let m : List (Nat × List Nat) := [(1, [10, 20]), (2, [30])]
     (generate_plot_coordinates m).2.length = m.length + 1
     ∧ (generate_plot_coordinates m).2.head? = some 0
     ∧ (generate_plot_coordinates m).2.getLast? = some (generate_plot_coordinates m).1.length
     ∧ (∀ i, i + 1 < (generate_plot_coordinates m).2.length →
         (generate_plot_coordinates m).2.getD i 0
           ≤ (generate_plot_coordinates m).2.getD (i + 1) 0)
     ∧ ∀ i, ∀ h : i < m.length,
         (((generate_plot_coordinates m).1.drop ((generate_plot_coordinates m).2.getD i 0)).take
             ((generate_plot_coordinates m).2.getD (i + 1) 0
               - (generate_plot_coordinates m).2.getD i 0))
           = (m.get ⟨i, h⟩).2) :=
  c10_plot_markers [(1, [10, 20]), (2, [30])] (by decide)

end LST
